/-
Verification of the diagram-to-source generation engine of the
collaborative diagram editor backend (NestJS service).

The development shallowly embeds the two code generators:
  * `CodeGenerationService` (Spring Boot target, code-generation.service.ts)
  * `CodeGenerationFlutterService` (Flutter target, code-generation-flutter.service.ts)
together with the validation prefixes of `DiagramsService.generateSpringBootCode`
and `DiagramsService.generateFlutterCode` (diagrams.service.ts).

Records (`Record<string, T>`) are modelled as association lists in insertion
order; JavaScript truthiness of strings (`undefined` and `""` are falsy) is
modelled explicitly where the source relies on it.
-/
import Mathlib

set_option maxRecDepth 40000

namespace DiagramModel

/-- An attribute of a diagram class: `{name, type}`.  Types are the raw
strings of the diagram (`String`, `Long`, ...). -/
structure Attribute where
  name : String
  type : String
deriving DecidableEq, Repr

/-- A class element of the diagram (layout metadata dropped: it is never
read by the generators). -/
structure ClassElement where
  name : String
  attributes : List Attribute
deriving DecidableEq, Repr

/-- The closed union of relation kinds (`Relation.type` in the source). -/
inductive RelationType where
  | OneToMany
  | ManyToOne
  | ManyToMany
  | OneToOne
  | Inheritance
  | Aggregation
  | Composition
deriving DecidableEq, Repr

/-- A relation of the diagram: `{from, to, type}` (layout metadata dropped).
`from`/`to` are class ids; `from` is a Lean keyword, hence `fromId`/`toId`. -/
structure Relation where
  fromId : String
  toId : String
  type : RelationType
deriving DecidableEq, Repr

/-- `DiagramContent`: ordered maps of class-id to class and relation-id to
relation, modelled as association lists in insertion order. -/
structure DiagramContent where
  elements : List (String × ClassElement)
  relations : List (String × Relation)
deriving DecidableEq, Repr

end DiagramModel

open DiagramModel

/-- Whether `pat` occurs at the head of `s` (on character lists). -/
def listStartsWith : List Char → List Char → Bool
  | _, [] => true
  | [], _ :: _ => false
  | a :: as, b :: bs => a = b && listStartsWith as bs

/-- Whether `pat` occurs contiguously anywhere in `s` (on character lists). -/
def listContainsSeq : List Char → List Char → Bool
  | [], pat => listStartsWith [] pat
  | c :: rest, pat => listStartsWith (c :: rest) pat || listContainsSeq rest pat

/-- JavaScript `String.prototype.includes`: `s` contains `pat` as a substring. -/
def jsIncludes (s pat : String) : Bool :=
  listContainsSeq s.data pat.data

/-- Lexicographic comparison of character lists (JavaScript's `<` on strings
compares code units; for the generator's identifiers these coincide with
code points). -/
def jsCharListLt : List Char → List Char → Bool
  | [], [] => false
  | [], _ :: _ => true
  | _ :: _, [] => false
  | a :: as, b :: bs => if a = b then jsCharListLt as bs else decide (a < b)

/-- JavaScript `a < b` on strings (also the default `Array.sort` comparison). -/
def jsStringLt (a b : String) : Bool :=
  jsCharListLt a.data b.data

/-- JavaScript `toLowerCase`, character-wise (the generators only rely on the
ASCII range; `String.toLower` itself is not kernel-reducible). -/
def jsToLowerCase (s : String) : String :=
  String.mk (s.data.map Char.toLower)

namespace CodeGenerationService

/-- `toSnakeCase` of code-generation.service.ts:
`str.replace(/[A-Z]/g, l => '_' + l.toLowerCase()).replace(/^_/, '')`. -/
def toSnakeCase (str : String) : String :=
  let replaced := String.join (str.data.map fun c =>
    if c.isUpper then "_" ++ String.singleton c.toLower else String.singleton c)
  match replaced.data with
  | '_' :: rest => String.mk rest
  | _ => replaced

/-- `toLowerCamelCase`: `str.charAt(0).toLowerCase() + str.slice(1)`. -/
def toLowerCamelCase (str : String) : String :=
  match str.data with
  | [] => ""
  | c :: rest => String.mk (c.toLower :: rest)

/-- `toKebabCase`: as `toSnakeCase` but inserting a hyphen before each
uppercase letter, stripping one leading hyphen. -/
def toKebabCase (str : String) : String :=
  let replaced := String.join (str.data.map fun c =>
    if c.isUpper then "-" ++ String.singleton c.toLower else String.singleton c)
  match replaced.data with
  | '-' :: rest => String.mk rest
  | _ => replaced

/-- `mapTypeToJava`: the closed attribute-type table; unknown types default to
`String` (with a console warning, a pure no-op here). -/
def mapTypeToJava (type : String) : String :=
  if type = "String" then "String"
  else if type = "Integer" then "Integer"
  else if type = "Long" then "Long"
  else if type = "Double" then "Double"
  else if type = "Float" then "Float"
  else if type = "Boolean" then "Boolean"
  else if type = "Date" then "java.util.Date"
  else if type = "LocalDate" then "java.time.LocalDate"
  else if type = "LocalDateTime" then "java.time.LocalDateTime"
  else if type = "BigDecimal" then "java.math.BigDecimal"
  else "String"

/-- `getClassNameById`: `this.classIdToNameMap.get(classId) || classId` — the
map built by `buildClassIdMap` from `content.elements`; a missing id (or an
empty, hence JS-falsy, name) falls back to the raw id. -/
def getClassNameById (elements : List (String × ClassElement)) (classId : String) : String :=
  match elements.find? (fun p => p.1 = classId) with
  | some p => if p.2.name = "" then classId else p.2.name
  | none => classId

/-- `getInverseRelationType`: lookup table with the input itself as fallback
(`inverseMap[relationType] || relationType`). -/
def getInverseRelationType : RelationType → RelationType
  | .OneToMany => .ManyToOne
  | .ManyToOne => .OneToMany
  | .ManyToMany => .ManyToMany
  | .OneToOne => .OneToOne
  | t => t

/-- The join-table identifier computed inside `generateRelationField` for an
owning ManyToMany: `sourceTable`/`targetTable` are both derived from the
*target* class (`targetClass` and `fieldName = toLowerCamelCase(targetClass)`),
sorted with `<`. -/
def manyToManyJoinTableName (targetClass : String) : String :=
  let fieldName := toLowerCamelCase targetClass
  let sourceTable := toSnakeCase targetClass
  let targetTable := toSnakeCase fieldName
  if jsStringLt sourceTable targetTable then sourceTable ++ "_" ++ targetTable
  else targetTable ++ "_" ++ sourceTable

/-- `generateRelationField`: the JPA field snippet for one relation end.
The `imports` side effect is modelled separately by `relationFieldImports`. -/
def generateRelationField (relationType : RelationType) (targetClass : String)
    (isOwner : Bool) : String :=
  let fieldName := toLowerCamelCase targetClass
  match relationType with
  | .OneToOne =>
    if isOwner then
      "    @OneToOne\n    @JoinColumn(name = \"" ++ toSnakeCase fieldName ++ "_id\")\n    private "
        ++ targetClass ++ " " ++ fieldName ++ ";"
    else
      "    @OneToOne(mappedBy = \"" ++ fieldName ++ "\")\n    private "
        ++ targetClass ++ " " ++ fieldName ++ ";"
  | .OneToMany =>
    "    @OneToMany(mappedBy = \"" ++ toLowerCamelCase targetClass
      ++ "\", cascade = CascadeType.ALL, orphanRemoval = true)\n    private List<"
      ++ targetClass ++ "> " ++ fieldName ++ "List = new ArrayList<>();"
  | .ManyToOne =>
    "    @ManyToOne\n    @JoinColumn(name = \"" ++ toSnakeCase fieldName ++ "_id\")\n    private "
      ++ targetClass ++ " " ++ fieldName ++ ";"
  | .ManyToMany =>
    if isOwner then
      "    @ManyToMany\n    @JoinTable(\n        name = \"" ++ manyToManyJoinTableName targetClass
        ++ "\",\n        joinColumns = @JoinColumn(name = \"" ++ toSnakeCase targetClass
        ++ "_id\"),\n        inverseJoinColumns = @JoinColumn(name = \"" ++ toSnakeCase fieldName
        ++ "_id\")\n    )\n    private Set<" ++ targetClass ++ "> " ++ fieldName
        ++ "Set = new HashSet<>();"
    else
      "    @ManyToMany(mappedBy = \"" ++ fieldName ++ "Set\")\n    private Set<"
        ++ targetClass ++ "> " ++ fieldName ++ "Set = new HashSet<>();"
  | .Inheritance =>
    "    // ⚠️ Relación de herencia con " ++ targetClass
      ++ ", manejar con 'extends " ++ targetClass ++ "'"
  | .Composition =>
    "    @OneToMany(cascade = CascadeType.ALL, orphanRemoval = true)\n    private List<"
      ++ targetClass ++ "> " ++ fieldName ++ "List = new ArrayList<>();"
  | .Aggregation =>
    "    @OneToMany\n    private List<" ++ targetClass ++ "> " ++ fieldName
      ++ "List = new ArrayList<>();"

/-- The `imports.add(...)` calls performed by `generateRelationField`. -/
def relationFieldImports : RelationType → List String
  | .OneToMany => ["import java.util.List;"]
  | .ManyToMany => ["import java.util.Set;"]
  | .Composition => ["import java.util.List;"]
  | .Aggregation => ["import java.util.List;"]
  | _ => []

/-- The inheritance scan at the top of `generateEntity`: walks all relations;
for each `Inheritance` relation, if the *from* class is `className` the class
is an inheritance parent, and if the *to* class is `className` its parent is
recorded as the *from* class (later relations overwrite). -/
def entityInheritanceScan (className : String) (content : DiagramContent) :
    Option String × Bool :=
  content.relations.foldl
    (fun acc p =>
      let relation := p.2
      let fromClass := getClassNameById content.elements relation.fromId
      let toClass := getClassNameById content.elements relation.toId
      if relation.type = RelationType.Inheritance then
        (if toClass = className then some fromClass else acc.1,
         if fromClass = className then true else acc.2)
      else acc)
    (none, false)

/-- The plain field line `    private <javaType> <name>;` of `generateEntity`. -/
def privateFieldLine (attr : Attribute) : String :=
  "    private " ++ mapTypeToJava attr.type ++ " " ++ attr.name ++ ";"

/-- The `@Id` line pushed by `generateEntity`. -/
def idAnnotationLine : String := "    @Id"

/-- The `@GeneratedValue` line pushed by `generateEntity`. -/
def generatedValueLine : String :=
  "    @GeneratedValue(strategy = GenerationType.IDENTITY)"

/-- The attribute lines of `generateEntity`: with no parent class, every
attribute is emitted and an attribute whose lower-cased name is `id` is
preceded by `@Id`/`@GeneratedValue`; with a parent class, attributes whose
lower-cased name is `id` are skipped and the rest emitted plainly. -/
def entityAttributeLines (parentClass : Option String) : List Attribute → List String
  | [] => []
  | attr :: rest =>
    match parentClass with
    | none =>
      (if jsToLowerCase attr.name = "id" then [idAnnotationLine, generatedValueLine] else [])
        ++ privateFieldLine attr :: entityAttributeLines none rest
    | some p =>
      if jsToLowerCase attr.name = "id" then entityAttributeLines (some p) rest
      else privateFieldLine attr :: entityAttributeLines (some p) rest

/-- The relation-field loop of `generateEntity`: for every non-Inheritance
relation, the source side gets the owning field and the target side (unless it
is the many side of a ManyToOne, or also the source) gets the inverse field. -/
def entityRelationFields (className : String) (content : DiagramContent) : List String :=
  content.relations.foldl
    (fun fields p =>
      let relation := p.2
      if relation.type = RelationType.Inheritance then fields
      else
        let isSource := getClassNameById content.elements relation.fromId = className
        let isTarget := getClassNameById content.elements relation.toId = className
        let fields :=
          if isSource then
            fields ++ [generateRelationField relation.type
              (getClassNameById content.elements relation.toId) true]
          else fields
        if isTarget ∧ relation.type ≠ RelationType.ManyToOne ∧ ¬ isSource then
          fields ++ [generateRelationField (getInverseRelationType relation.type)
            (getClassNameById content.elements relation.fromId) false]
        else fields)
    []

/-- Insertion into the `Set<string>` of imports (insertion order preserved). -/
def addImport (imports : List String) (s : String) : List String :=
  if s ∈ imports then imports else imports ++ [s]

/-- The import set of `generateEntity` after the relation loop and the
`hasLists`/`hasSets` checks. -/
def entityImports (className : String) (content : DiagramContent) : List String :=
  let base := ["import jakarta.persistence.*;", "import lombok.Data;",
    "import lombok.NoArgsConstructor;", "import lombok.AllArgsConstructor;"]
  let withRel := content.relations.foldl
    (fun imports p =>
      let relation := p.2
      if relation.type = RelationType.Inheritance then imports
      else
        let isSource := getClassNameById content.elements relation.fromId = className
        let isTarget := getClassNameById content.elements relation.toId = className
        let imports :=
          if isSource then
            (relationFieldImports relation.type).foldl addImport imports
          else imports
        if isTarget ∧ relation.type ≠ RelationType.ManyToOne ∧ ¬ isSource then
          (relationFieldImports (getInverseRelationType relation.type)).foldl addImport imports
        else imports)
    base
  let fields := entityRelationFields className content
  let hasLists := fields.any (fun f => jsIncludes f "List<")
  let hasSets := fields.any (fun f => jsIncludes f "Set<")
  let withLists := if hasLists then
    (["import java.util.List;", "import java.util.ArrayList;"]).foldl addImport withRel
  else withRel
  if hasSets then
    (["import java.util.Set;", "import java.util.HashSet;"]).foldl addImport withLists
  else withLists

/-- The ` extends <parent>` clause of `generateEntity`. -/
def entityExtendsClause (parentClass : Option String) : String :=
  match parentClass with
  | some p => " extends " ++ p
  | none => ""

/-- The `@Inheritance(strategy = InheritanceType.JOINED)` header emitted when
the class is an inheritance parent. -/
def entityInheritanceHeader (isParent : Bool) : String :=
  if isParent then "\n@Inheritance(strategy = InheritanceType.JOINED)" else ""

/-- `generateEntity`: the complete entity source text for one class. -/
def generateEntity (className : String) (classData : ClassElement)
    (content : DiagramContent) (basePackage : String) : String :=
  let scan := entityInheritanceScan className content
  let parentClass := scan.1
  let attributes := entityAttributeLines parentClass classData.attributes
  let relationFields := entityRelationFields className content
  "package " ++ basePackage ++ ".entity;\n\n"
    ++ String.intercalate "\n" (entityImports className content)
    ++ "\nimport java.util.*;\n\n@Entity\n@Table(name = \"" ++ toSnakeCase className
    ++ "\")" ++ entityInheritanceHeader scan.2
    ++ "\n@Data\n@NoArgsConstructor\n@AllArgsConstructor\npublic class " ++ className
    ++ entityExtendsClause parentClass ++ " \x7b\n\n"
    ++ String.intercalate "\n" attributes ++ "\n\n"
    ++ String.intercalate "\n\n" relationFields ++ "\n\x7d\n"

/-- `generateRepository`: the complete repository source text — the key type
of `JpaRepository` is the literal `Long`, and the interface body is empty. -/
def generateRepository (className : String) (basePackage : String) : String :=
  "package " ++ basePackage ++ ".repository;\n\nimport " ++ basePackage
    ++ ".entity." ++ className
    ++ ";\nimport org.springframework.data.jpa.repository.JpaRepository;\nimport org.springframework.stereotype.Repository;\n\n@Repository\npublic interface "
    ++ className ++ "Repository extends JpaRepository<" ++ className
    ++ ", Long> \x7b\n\x7d\n"

end CodeGenerationService

namespace CodeGenerationFlutterService

/-- `RelationshipInfo`: one resolved, directional relationship fact as pushed
into the per-class map by `analyzeRelationships`. -/
structure RelationshipInfo where
  type : RelationType
  targetClass : String
  targetClassId : String
  isOwner : Bool
deriving DecidableEq, Repr

/-- `diagramContent.elements[id]?.name`: the (possibly empty) name of the
class stored under `id`, or `none` when the id is absent. -/
def classNameOf (content : DiagramContent) (id : String) : Option String :=
  (content.elements.find? (fun p => p.1 = id)).map (fun p => p.2.name)

/-- `toSnakeCase` of code-generation-flutter.service.ts: insert `_` before
each uppercase letter, lower-case the whole string, strip one leading `_`. -/
def toSnakeCase (str : String) : String :=
  let replaced := String.join (str.data.map fun c =>
    if c.isUpper then "_" ++ String.singleton c else String.singleton c)
  let lowered := jsToLowerCase replaced
  match lowered.data with
  | '_' :: rest => String.mk rest
  | _ => lowered

/-- `toCamelCase`: `str.charAt(0).toLowerCase() + str.slice(1)`. -/
def toCamelCase (str : String) : String :=
  match str.data with
  | [] => ""
  | c :: rest => String.mk (c.toLower :: rest)

/-- `mapJavaToDartType`: closed table, defaulting to `String`. -/
def mapJavaToDartType (javaType : String) : String :=
  if javaType = "String" then "String"
  else if javaType = "Integer" then "int"
  else if javaType = "Long" then "int"
  else if javaType = "Double" then "double"
  else if javaType = "Float" then "double"
  else if javaType = "Boolean" then "bool"
  else if javaType = "Date" then "DateTime"
  else if javaType = "LocalDate" then "DateTime"
  else if javaType = "LocalDateTime" then "DateTime"
  else if javaType = "BigDecimal" then "double"
  else "String"

/-- The `(classId, RelationshipInfo)` pushes performed by one iteration of
`analyzeRelationships`: a relation whose endpoint name is missing (or empty,
hence JS-falsy) contributes nothing; otherwise the pushes follow the per-kind
policy of the source (OneToMany rewritten as an owning ManyToOne on the `to`
class; Aggregation/Composition rewritten as a non-owning OneToMany on `from`
plus an owning ManyToOne on `to`). -/
def relationEntries (content : DiagramContent) (relation : Relation) :
    List (String × RelationshipInfo) :=
  match classNameOf content relation.fromId, classNameOf content relation.toId with
  | some fromClass, some toClass =>
    if fromClass = "" ∨ toClass = "" then []
    else
      match relation.type with
      | .ManyToOne =>
        [(relation.fromId, ⟨.ManyToOne, toClass, relation.toId, true⟩)]
      | .OneToMany =>
        [(relation.toId, ⟨.ManyToOne, fromClass, relation.fromId, true⟩)]
      | .ManyToMany =>
        [(relation.fromId, ⟨.ManyToMany, toClass, relation.toId, true⟩),
         (relation.toId, ⟨.ManyToMany, fromClass, relation.fromId, false⟩)]
      | .OneToOne =>
        [(relation.fromId, ⟨.OneToOne, toClass, relation.toId, true⟩)]
      | .Inheritance =>
        [(relation.fromId, ⟨.Inheritance, toClass, relation.toId, false⟩)]
      | .Aggregation =>
        [(relation.fromId, ⟨.OneToMany, toClass, relation.toId, false⟩),
         (relation.toId, ⟨.ManyToOne, fromClass, relation.fromId, true⟩)]
      | .Composition =>
        [(relation.fromId, ⟨.OneToMany, toClass, relation.toId, false⟩),
         (relation.toId, ⟨.ManyToOne, fromClass, relation.fromId, true⟩)]
  | _, _ => []

/-- `analyzeRelationships`, flattened: the map is represented by the ordered
list of its pushes (bucket order per class is preserved). -/
def analyzeRelationships (content : DiagramContent) : List (String × RelationshipInfo) :=
  (content.relations.map (fun p => relationEntries content p.2)).flatten

/-- `relationshipMap.get(classId) || []`: the bucket of one class. -/
def relationshipsForClass (content : DiagramContent) (classId : String) :
    List RelationshipInfo :=
  (analyzeRelationships content).filterMap
    (fun e => if e.1 = classId then some e.2 else none)

/-- One entry of `detectManyToManyAssignments`. -/
structure Assignment where
  classA : String
  classB : String
  ownerName : String
  ownerId : String
  inverseName : String
  inverseId : String
  fileName : String
deriving DecidableEq, Repr

/-- The assignment produced for one relation by `detectManyToManyAssignments`
(`none` for non-ManyToMany relations and dangling endpoints).  `[a, b].sort()`
on two strings swaps exactly when the second compares smaller. -/
def assignmentOfRelation (content : DiagramContent) (relation : Relation) :
    Option Assignment :=
  if relation.type = RelationType.ManyToMany then
    match classNameOf content relation.fromId, classNameOf content relation.toId with
    | some ownerName, some inverseName =>
      if ownerName = "" ∨ inverseName = "" then none
      else
        let first := if jsStringLt inverseName ownerName then inverseName else ownerName
        let second := if jsStringLt inverseName ownerName then ownerName else inverseName
        some ⟨first, second, ownerName, relation.fromId, inverseName, relation.toId,
          toSnakeCase (first ++ "_" ++ second ++ "_assignment")⟩
    | _, _ => none
  else none

/-- `detectManyToManyAssignments`: one assignment per ManyToMany relation with
both endpoints present, in relation order (no de-duplication). -/
def detectManyToManyAssignments (content : DiagramContent) : List Assignment :=
  content.relations.filterMap (fun p => assignmentOfRelation content p.2)

/-- The inheritance relationship found by `generateModel`
(`relationships.find(r => r.type === 'Inheritance')`). -/
def modelInheritanceRel (relationships : List RelationshipInfo) : Option RelationshipInfo :=
  relationships.find? (fun r => r.type == RelationType.Inheritance)

/-- The parent attribute list of `generateModel`:
`diagramContent.elements[rel.targetClassId]?.attributes || []`. -/
def modelParentAttrs (content : DiagramContent)
    (relationships : List RelationshipInfo) : List Attribute :=
  match modelInheritanceRel relationships with
  | some r =>
    match content.elements.find? (fun p => p.1 = r.targetClassId) with
    | some p => p.2.attributes
    | none => []
  | none => []

/-- The merge loop of `generateModel`: keep an attribute when its lower-cased
name is non-empty and not seen before (first-declared wins). -/
def mergeAttributes (seen : List String) : List Attribute → List Attribute
  | [] => []
  | a :: rest =>
    let key := jsToLowerCase a.name
    if key = "" then mergeAttributes seen rest
    else if key ∈ seen then mergeAttributes seen rest
    else a :: mergeAttributes (key :: seen) rest

/-- The merged attribute list of `generateModel`: parent attributes first,
then the class's own, de-duplicated case-insensitively, first wins. -/
def modelMergedAttributes (classElement : ClassElement)
    (relationships : List RelationshipInfo) (content : DiagramContent) : List Attribute :=
  mergeAttributes [] (modelParentAttrs content relationships ++ classElement.attributes)

/-- The foreign-key id fields of `generateModel`: one `int? <target>Id;` per
owning ManyToOne/OneToOne relationship of the class. -/
def modelFkFields (relationships : List RelationshipInfo) : List String :=
  (relationships.filter
      (fun r => r.isOwner && (r.type == RelationType.ManyToOne
        || r.type == RelationType.OneToOne))).map
    (fun r => "  int? " ++ toCamelCase r.targetClass ++ "Id;")

/-- The file names written into `lib/screens/forms/` by
`generateFlutterProject`, in write order: one `<snake(name)>_form.dart` per
class, then one `<fileName>_form.dart` per detected assignment.  JSZip
overwrites on equal paths, so the archive holds each distinct path once. -/
def formsFolderWrites (content : DiagramContent) : List String :=
  content.elements.map (fun p => toSnakeCase p.2.name ++ "_form.dart")
    ++ (detectManyToManyAssignments content).map (fun a => a.fileName ++ "_form.dart")

/-- The distinct file paths present in `lib/screens/forms/` of the produced
archive (`dedup` keeps the surviving write of each path). -/
def formsFolderFiles (content : DiagramContent) : List String :=
  (formsFolderWrites content).dedup

end CodeGenerationFlutterService

namespace DiagramsService

/-- The `content` column of a stored diagram, as far as the generation entry
points inspect it before generating: the `elements` key may be absent. -/
structure RawContent where
  elements : Option (List (String × ClassElement))
deriving DecidableEq, Repr

/-- The validation prefix of `DiagramsService.generateSpringBootCode`:
`if (!diagram.content || !diagram.content.elements) throw ...` — an empty
`elements` object is truthy, so a zero-class model passes. -/
def generateSpringBootCodeCheck : Option RawContent → Except String Unit
  | none => Except.error "El diagrama no tiene contenido válido"
  | some c =>
    match c.elements with
    | none => Except.error "El diagrama no tiene contenido válido"
    | some _ => Except.ok ()

/-- The validation prefix of `DiagramsService.generateFlutterCode`: besides
the content checks it refuses when `Object.keys(elements).length === 0`. -/
def generateFlutterCodeCheck : Option RawContent → Except String Unit
  | none => Except.error "El diagrama no tiene contenido válido para generar código"
  | some c =>
    match c.elements with
    | none => Except.error "El diagrama no tiene contenido válido para generar código"
    | some els =>
      if els.length = 0 then Except.error "El diagrama debe contener al menos una clase"
      else Except.ok ()

end DiagramsService

namespace CodeGenerationService

/-- `basePackage.replace(/\./g, '/')`. -/
def packagePath (basePackage : String) : String :=
  String.intercalate "/" (basePackage.splitOn ".")

/-- The archive paths produced by `generateSpringBootProject`: five per-class
files plus the fixed scaffold files (contents elided; path layout follows the
`zip.folder`/`file` calls of the source). -/
def generateSpringBootProjectPaths (content : DiagramContent)
    (projectName basePackage : String) : List String :=
  let base := projectName ++ "/src/main/java/" ++ packagePath basePackage
  (content.elements.map (fun p =>
      [base ++ "/entity/" ++ p.2.name ++ ".java",
       base ++ "/dto/" ++ p.2.name ++ "DTO.java",
       base ++ "/repository/" ++ p.2.name ++ "Repository.java",
       base ++ "/service/" ++ p.2.name ++ "Service.java",
       base ++ "/controller/" ++ p.2.name ++ "Controller.java"])).flatten
    ++ [base ++ "/Application.java",
        projectName ++ "/src/main/resources/application.properties",
        projectName ++ "/pom.xml",
        projectName ++ "/README.md",
        projectName ++ "/setup.bat",
        projectName ++ "/setup.sh",
        projectName ++ "/database.config.template",
        projectName ++ "/.gitignore",
        projectName ++ "/.mvn/wrapper/maven-wrapper.properties",
        projectName ++ "/mvnw",
        projectName ++ "/mvnw.cmd",
        projectName ++ "/QUICK_START.txt"]

end CodeGenerationService

namespace CodeGenerationService

/-- The join identifier the spec describes: the underscore concatenation of
the lexicographically sorted pair of the *two* classes' snake-case table
names (for comparison with `manyToManyJoinTableName`, which the source
computes from the target class alone). -/
def sortedJoinTableNameSpec (a b : String) : String :=
  let ta := toSnakeCase a
  let tb := toSnakeCase b
  if jsStringLt ta tb then ta ++ "_" ++ tb else tb ++ "_" ++ ta

/-- The repository text as the spec describes it: the same template as
`generateRepository`, but parameterized by the primary-key type of the
entity. -/
def repositoryWithKeyType (className basePackage keyType : String) : String :=
  "package " ++ basePackage ++ ".repository;\n\nimport " ++ basePackage
    ++ ".entity." ++ className
    ++ ";\nimport org.springframework.data.jpa.repository.JpaRepository;\nimport org.springframework.stereotype.Repository;\n\n@Repository\npublic interface "
    ++ className ++ "Repository extends JpaRepository<" ++ className
    ++ ", " ++ keyType ++ "> \x7b\n\x7d\n"

/-- The declared primary-key type of a class, as the spec reads it: the
mapped type of the attribute literally named `id` (case-insensitive). -/
def declaredIdKeyType (classData : ClassElement) : Option String :=
  (classData.attributes.find? (fun a => jsToLowerCase a.name == "id")).map
    (fun a => mapTypeToJava a.type)

end CodeGenerationService

/-- A two-class diagram with a single relation (the smallest shape on which
the per-relation policies act). -/
def twoClassContent (cA cB rid : String) (A B : ClassElement) (r : Relation) :
    DiagramContent :=
  ⟨[(cA, A), (cB, B)], [(rid, r)]⟩

namespace Examples

/-- `Author {id: Long, name: String}`. -/
def author : ClassElement := ⟨"Author", [⟨"id", "Long"⟩, ⟨"name", "String"⟩]⟩

/-- `Book {id: Long, title: String}`. -/
def book : ClassElement := ⟨"Book", [⟨"id", "Long"⟩, ⟨"title", "String"⟩]⟩

/-- `Parent {id: Long, name: String}`. -/
def parentClass : ClassElement := ⟨"Parent", [⟨"id", "Long"⟩, ⟨"name", "String"⟩]⟩

/-- `Child {id: Long, name: String, extra: String}` — `name` repeats the
parent's attribute. -/
def childClass : ClassElement :=
  ⟨"Child", [⟨"id", "Long"⟩, ⟨"name", "String"⟩, ⟨"extra", "String"⟩]⟩

/-- `Tag {label: String}` — a class with no `id` attribute. -/
def tagClass : ClassElement := ⟨"Tag", [⟨"label", "String"⟩]⟩

/-- Inheritance authored `Parent → Child` (from = Parent, to = Child). -/
def inheritanceContent : DiagramContent :=
  twoClassContent "c1" "c2" "r1" parentClass childClass ⟨"c1", "c2", .Inheritance⟩

/-- ManyToMany authored `Author → Book`. -/
def mmAuthorBook : DiagramContent :=
  twoClassContent "c1" "c2" "r1" author book ⟨"c1", "c2", .ManyToMany⟩

/-- ManyToMany authored `Book → Author` (same unordered pair, other
direction). -/
def mmBookAuthor : DiagramContent :=
  twoClassContent "c1" "c2" "r1" author book ⟨"c2", "c1", .ManyToMany⟩

/-- Two ManyToMany relations between the same unordered pair. -/
def mmTwice : DiagramContent :=
  ⟨[("c1", author), ("c2", book)],
   [("r1", ⟨"c1", "c2", .ManyToMany⟩), ("r2", ⟨"c2", "c1", .ManyToMany⟩)]⟩

/-- A relation whose `to` id (`c9`) names no class. -/
def danglingContent : DiagramContent :=
  ⟨[("c1", author)], [("r1", ⟨"c1", "c9", .ManyToOne⟩)]⟩

/-- ManyToOne authored `Book → Author`. -/
def manyToOneContent : DiagramContent :=
  twoClassContent "c1" "c2" "r1" book author ⟨"c1", "c2", .ManyToOne⟩

/-- OneToMany authored `Author → Book` (the claimed equivalent of
`manyToOneContent`). -/
def oneToManyContent : DiagramContent :=
  twoClassContent "c1" "c2" "r1" book author ⟨"c2", "c1", .OneToMany⟩

/-- Composition authored `Author → Book` (Author contains Books). -/
def compositionContent : DiagramContent :=
  twoClassContent "c1" "c2" "r1" author book ⟨"c1", "c2", .Composition⟩

/-- Aggregation authored `Author → Book`. -/
def aggregationContent : DiagramContent :=
  twoClassContent "c1" "c2" "r1" author book ⟨"c1", "c2", .Aggregation⟩

/-- A content with a `Tag` class and no relations. -/
def tagContent : DiagramContent := ⟨[("c1", tagClass)], []⟩

end Examples

namespace CodeGenerationService

lemma privateFieldLine_data (a : Attribute) :
    (privateFieldLine a).data
      = "    private ".data
        ++ ((mapTypeToJava a.type).data ++ (" ".data ++ (a.name.data ++ ";".data))) := by
  simp [privateFieldLine, String.data_append]

lemma privateFieldLine_char_four (a : Attribute) :
    (privateFieldLine a).data[4]? = some 'p' := by
  rw [privateFieldLine_data, List.getElem?_append, if_pos (by decide)]
  rfl

lemma privateFieldLine_ne_idAnnotationLine (a : Attribute) :
    privateFieldLine a ≠ idAnnotationLine := by
  intro h
  have h4 := privateFieldLine_char_four a
  rw [h] at h4
  exact absurd h4 (by decide)

lemma privateFieldLine_ne_generatedValueLine (a : Attribute) :
    privateFieldLine a ≠ generatedValueLine := by
  intro h
  have h4 := privateFieldLine_char_four a
  rw [h] at h4
  exact absurd h4 (by decide)

lemma entityAttributeLines_none_eq_map (attrs : List Attribute)
    (h : ∀ a ∈ attrs, jsToLowerCase a.name ≠ "id") :
    entityAttributeLines none attrs = attrs.map privateFieldLine := by
  induction attrs with
  | nil => rfl
  | cons a rest ih =>
    have ha := h a (List.mem_cons_self a rest)
    simp [entityAttributeLines, ha, ih (fun b hb => h b (List.mem_cons_of_mem _ hb))]

lemma entityAttributeLines_some_eq_filter (p : String) (attrs : List Attribute) :
    entityAttributeLines (some p) attrs
      = (attrs.filter (fun a => !(jsToLowerCase a.name == "id"))).map privateFieldLine := by
  induction attrs with
  | nil => rfl
  | cons a rest ih =>
    by_cases h : jsToLowerCase a.name = "id" <;>
      simp [entityAttributeLines, List.filter_cons, h, ih]

end CodeGenerationService

namespace CodeGenerationFlutterService

lemma mergeAttributes_key_not_seen (l : List Attribute) (seen : List String) :
    ∀ a ∈ mergeAttributes seen l, jsToLowerCase a.name ∉ seen := by
  induction l generalizing seen with
  | nil => simp [mergeAttributes]
  | cons b rest ih =>
    intro a ha
    simp only [mergeAttributes] at ha
    split_ifs at ha with h1 h2
    · exact ih seen a ha
    · exact ih seen a ha
    · rcases List.mem_cons.1 ha with rfl | hmem
      · exact h2
      · have := ih _ a hmem
        exact fun hs => this (List.mem_cons_of_mem _ hs)

lemma mergeAttributes_nodup_keys (l : List Attribute) (seen : List String) :
    ((mergeAttributes seen l).map (fun a => jsToLowerCase a.name)).Nodup := by
  induction l generalizing seen with
  | nil => simp [mergeAttributes]
  | cons b rest ih =>
    simp only [mergeAttributes]
    split_ifs with h1 h2
    · exact ih seen
    · exact ih seen
    · simp only [List.map_cons, List.nodup_cons]
      refine ⟨fun hmem => ?_, ih _⟩
      obtain ⟨a, ha, hkey⟩ := List.mem_map.1 hmem
      exact mergeAttributes_key_not_seen rest _ a ha
        (hkey ▸ List.mem_cons_self _ _)

lemma mergeAttributes_sublist (l : List Attribute) (seen : List String) :
    List.Sublist (mergeAttributes seen l) l := by
  induction l generalizing seen with
  | nil => simp [mergeAttributes]
  | cons b rest ih =>
    simp only [mergeAttributes]
    split_ifs with h1 h2
    · exact List.Sublist.cons b (ih seen)
    · exact List.Sublist.cons b (ih seen)
    · exact List.Sublist.cons₂ b (ih _)

end CodeGenerationFlutterService

lemma stringAppendAssoc (x y z : String) : (x ++ y) ++ z = x ++ (y ++ z) := by
  apply String.ext
  simp [String.data_append, List.append_assoc]

lemma repoTailEq (x : String) :
    x ++ ", Long> \x7b\n\x7d\n" = ((x ++ ", ") ++ "Long") ++ "> \x7b\n\x7d\n" := by
  apply String.ext
  simp only [String.data_append, List.append_assoc]
  congr 1

open CodeGenerationService CodeGenerationFlutterService in
/-- C3 (claim false; code bug): the claim — and the source's own comment about
an alphabetically consistent name — say the ManyToMany join identifier is the
underscore concatenation of the lexicographically sorted snake-case table
names of the two classes, independent of authoring direction.  The code
computes both `sourceTable` and `targetTable` from the *target* class alone
(`targetClass` and its lower-camel variant), so for Author/Book the relation
authored Book→Author emits join table `author_author` and the one authored
Author→Book emits `book_book`: the identifier is direction-dependent and never
mentions the owning class.  The spec-described identifier is `author_book` for
both directions. -/
theorem C3_join_identifier_depends_on_direction :
    manyToManyJoinTableName "Author" = "author_author"
    ∧ manyToManyJoinTableName "Book" = "book_book"
    ∧ sortedJoinTableNameSpec "Author" "Book" = "author_book"
    ∧ sortedJoinTableNameSpec "Book" "Author" = "author_book"
    ∧ entityRelationFields "Book" Examples.mmBookAuthor
        = [generateRelationField RelationType.ManyToMany "Author" true]
    ∧ entityRelationFields "Author" Examples.mmAuthorBook
        = [generateRelationField RelationType.ManyToMany "Book" true]
    ∧ jsIncludes (generateRelationField RelationType.ManyToMany "Author" true)
        "author_author" = true
    ∧ jsIncludes (generateRelationField RelationType.ManyToMany "Book" true)
        "book_book" = true := by
  refine ⟨by decide, by decide, by decide, by decide, by decide, by decide, by decide, by decide⟩

open CodeGenerationService in
/-- C9 counterexample: for class `Foo` whose `id` attribute is declared with
type `String`, the claim demands a repository keyed by the declared id type
(`String`); the generated repository is keyed by `Long`. -/
theorem C9_counterexample_string_id :
    declaredIdKeyType ⟨"Foo", [⟨"id", "String"⟩]⟩ = some "String"
    ∧ generateRepository "Foo" "com.example.demo"
        = repositoryWithKeyType "Foo" "com.example.demo" "Long"
    ∧ generateRepository "Foo" "com.example.demo"
        ≠ repositoryWithKeyType "Foo" "com.example.demo" "String" := by
  refine ⟨by decide, by decide, by decide⟩

open CodeGenerationService in
/-- C9 (amended): for every class, the generated server repository is the
generic `JpaRepository` surface parameterized by the entity type and the
*fixed* key type `Long` — which coincides with the declared id type only when
that type is `Long` — and declares no custom query methods (empty body). -/
theorem C9_repository_generic_long_key (className basePackage : String) :
    generateRepository className basePackage
      = repositoryWithKeyType className basePackage "Long" := by
  unfold generateRepository repositoryWithKeyType
  exact repoTailEq _

open CodeGenerationService in
/-- C7 counterexample: for a stored content with an `elements` key holding
zero classes, the Flutter entry point refuses with a terminal error but the
Spring Boot entry point's validation passes and the generator still produces
an archive (its scaffold files). -/
theorem C7_counterexample_empty_model :
    DiagramsService.generateSpringBootCodeCheck (some ⟨some []⟩) = Except.ok ()
    ∧ DiagramsService.generateFlutterCodeCheck (some ⟨some []⟩)
        = Except.error "El diagrama debe contener al menos una clase"
    ∧ generateSpringBootProjectPaths ⟨[], []⟩ "proj" "com.example.demo" ≠ [] := by
  refine ⟨rfl, rfl, by decide⟩

open CodeGenerationService in
/-- C7 (amended): only the client (Flutter) target refuses a zero-class
model with a terminal error; the server (Spring Boot) target's validation
accepts any non-null content carrying an `elements` key, and for a zero-class
model the generator still assembles an archive holding exactly the twelve
scaffold files. -/
theorem C7_only_flutter_refuses_zero_classes (els : List (String × ClassElement))
    (h : els.length = 0) :
    DiagramsService.generateFlutterCodeCheck (some ⟨some els⟩)
        = Except.error "El diagrama debe contener al menos una clase"
    ∧ DiagramsService.generateSpringBootCodeCheck (some ⟨some els⟩) = Except.ok ()
    ∧ ∀ rels projectName basePackage,
        (generateSpringBootProjectPaths ⟨els, rels⟩ projectName basePackage).length = 12 := by
  obtain rfl := List.length_eq_zero.1 h
  exact ⟨rfl, rfl, fun rels pn bp => rfl⟩

/-- Witness for `C7_only_flutter_refuses_zero_classes` at the empty element
list. -/
theorem C7_only_flutter_refuses_zero_classes_witness :
    ([] : List (String × ClassElement)).length = 0
    ∧ (DiagramsService.generateFlutterCodeCheck (some ⟨some []⟩)
        = Except.error "El diagrama debe contener al menos una clase"
      ∧ DiagramsService.generateSpringBootCodeCheck (some ⟨some []⟩) = Except.ok ()
      ∧ ∀ rels projectName basePackage,
          (CodeGenerationService.generateSpringBootProjectPaths ⟨[], rels⟩
            projectName basePackage).length = 12) :=
  ⟨rfl, C7_only_flutter_refuses_zero_classes [] rfl⟩

open CodeGenerationService in
/-- C10 (confirmed): for a class that is not the child end of an Inheritance
relation (the scan finds no parent) and has no attribute named `id`
(case-insensitive), the generated entity's attribute section is exactly one
plain `private` field line per declared attribute — no `@Id` line, no
`@GeneratedValue` line, and no synthesized id field. -/
theorem C10_no_id_attribute_no_primary_key (content : DiagramContent)
    (className : String) (classData : ClassElement)
    (hparent : (entityInheritanceScan className content).1 = none)
    (hid : ∀ a ∈ classData.attributes, jsToLowerCase a.name ≠ "id") :
    entityAttributeLines (entityInheritanceScan className content).1 classData.attributes
        = classData.attributes.map privateFieldLine
    ∧ idAnnotationLine ∉
        entityAttributeLines (entityInheritanceScan className content).1 classData.attributes
    ∧ generatedValueLine ∉
        entityAttributeLines (entityInheritanceScan className content).1 classData.attributes := by
  rw [hparent]
  have hmap := entityAttributeLines_none_eq_map classData.attributes hid
  refine ⟨hmap, ?_, ?_⟩ <;> rw [hmap] <;> intro hmem
  · obtain ⟨a, _, ha⟩ := List.mem_map.1 hmem
    exact privateFieldLine_ne_idAnnotationLine a ha
  · obtain ⟨a, _, ha⟩ := List.mem_map.1 hmem
    exact privateFieldLine_ne_generatedValueLine a ha

open CodeGenerationService in
/-- Witness for `C10_no_id_attribute_no_primary_key` on the `Tag` class. -/
theorem C10_no_id_attribute_no_primary_key_witness :
    ((entityInheritanceScan "Tag" Examples.tagContent).1 = none
      ∧ ∀ a ∈ Examples.tagClass.attributes, jsToLowerCase a.name ≠ "id")
    ∧ (entityAttributeLines (entityInheritanceScan "Tag" Examples.tagContent).1
          Examples.tagClass.attributes
        = Examples.tagClass.attributes.map privateFieldLine
      ∧ idAnnotationLine ∉
          entityAttributeLines (entityInheritanceScan "Tag" Examples.tagContent).1
            Examples.tagClass.attributes
      ∧ generatedValueLine ∉
          entityAttributeLines (entityInheritanceScan "Tag" Examples.tagContent).1
            Examples.tagClass.attributes) :=
  ⟨⟨by decide, by decide⟩,
    C10_no_id_attribute_no_primary_key Examples.tagContent "Tag" Examples.tagClass
      (by decide) (by decide)⟩

open CodeGenerationFlutterService in
/-- C8 (confirmed): for every diagram and unordered pair of existing class
names `A`, `B` joined by at least one ManyToMany relation, the client archive
contains exactly one assignment-screen file for that pair in
`lib/screens/forms/`: its name is derived from the sorted pair
(`detectManyToManyAssignments` emits one entry per relation with that same
canonical file name, and the archive keeps one file per path), so multiple
ManyToMany relations between the same pair collapse onto one screen file. -/
theorem C8_one_assignment_screen_per_pair (content : DiagramContent) (A B : String)
    (h : ∃ p ∈ content.relations, p.2.type = RelationType.ManyToMany
        ∧ classNameOf content p.2.fromId = some A
        ∧ classNameOf content p.2.toId = some B
        ∧ A ≠ "" ∧ B ≠ "") :
    (formsFolderFiles content).count
        (toSnakeCase ((if jsStringLt B A then B else A) ++ "_"
            ++ (if jsStringLt B A then A else B) ++ "_assignment") ++ "_form.dart") = 1 := by
  obtain ⟨p, hp, htype, hfrom, hto, hA, hB⟩ := h
  have hassign : assignmentOfRelation content p.2
      = some ⟨if jsStringLt B A then B else A, if jsStringLt B A then A else B, A,
          p.2.fromId, B, p.2.toId,
          toSnakeCase ((if jsStringLt B A then B else A) ++ "_"
            ++ (if jsStringLt B A then A else B) ++ "_assignment")⟩ := by
    simp [assignmentOfRelation, htype, hfrom, hto, hA, hB]
  have hmem : (toSnakeCase ((if jsStringLt B A then B else A) ++ "_"
      ++ (if jsStringLt B A then A else B) ++ "_assignment") ++ "_form.dart")
      ∈ formsFolderWrites content := by
    apply List.mem_append_right
    apply List.mem_map.2
    exact ⟨_, List.mem_filterMap.2 ⟨p, hp, hassign⟩, rfl⟩
  have hmem2 : (toSnakeCase ((if jsStringLt B A then B else A) ++ "_"
      ++ (if jsStringLt B A then A else B) ++ "_assignment") ++ "_form.dart")
      ∈ formsFolderFiles content := List.mem_dedup.2 hmem
  exact List.count_eq_one_of_mem (List.nodup_dedup _) hmem2

open CodeGenerationFlutterService in
/-- Witness for `C8_one_assignment_screen_per_pair`: two ManyToMany relations
between Author and Book, authored in opposite directions, still yield exactly
one assignment-screen file. -/
theorem C8_one_assignment_screen_per_pair_witness :
    (∃ p ∈ Examples.mmTwice.relations, p.2.type = RelationType.ManyToMany
        ∧ classNameOf Examples.mmTwice p.2.fromId = some "Author"
        ∧ classNameOf Examples.mmTwice p.2.toId = some "Book"
        ∧ "Author" ≠ "" ∧ "Book" ≠ "")
    ∧ (formsFolderFiles Examples.mmTwice).count
        (toSnakeCase ((if jsStringLt "Book" "Author" then "Book" else "Author") ++ "_"
            ++ (if jsStringLt "Book" "Author" then "Author" else "Book") ++ "_assignment")
          ++ "_form.dart") = 1 :=
  ⟨by decide, C8_one_assignment_screen_per_pair Examples.mmTwice "Author" "Book" (by decide)⟩

open CodeGenerationService in
/-- C1 counterexample: for the Inheritance relation authored Parent→Child
(from = Parent, to = Child), the server generator marks the *from* class as
the inheritance parent (no extends clause) and makes the *to* class extend the
*from* class — the reverse of the claim that in both generators the `from`
class extends the `to` class. -/
theorem C1_counterexample_server_child_is_to :
    entityInheritanceScan "Parent" Examples.inheritanceContent = (none, true)
    ∧ entityInheritanceScan "Child" Examples.inheritanceContent = (some "Parent", false)
    ∧ entityExtendsClause (entityInheritanceScan "Parent" Examples.inheritanceContent).1 = ""
    ∧ entityExtendsClause (entityInheritanceScan "Child" Examples.inheritanceContent).1
        = " extends Parent" := by
  refine ⟨by decide, by decide, by decide, by decide⟩

open CodeGenerationService CodeGenerationFlutterService in
/-- C1 (amended): for an Inheritance relation between two existing classes
`F` (from) and `T` (to): in the client generator the `from` class is the
child — it receives `{target = T, isOwner = false, kind = Inheritance}` and
its model takes `T`'s attributes as the parent attributes to merge — while in
the server generator the roles are reversed: `F` is the inheritance root and
the `to` class `T` extends `F`. -/
theorem C1_inheritance_child_from_client_to_server (cf ct rid : String)
    (F T : ClassElement) (hid : cf ≠ ct) (hname : F.name ≠ T.name)
    (hF : F.name ≠ "") (hT : T.name ≠ "") :
    relationshipsForClass (twoClassContent cf ct rid F T ⟨cf, ct, .Inheritance⟩) cf
        = [⟨RelationType.Inheritance, T.name, ct, false⟩]
    ∧ relationshipsForClass (twoClassContent cf ct rid F T ⟨cf, ct, .Inheritance⟩) ct = []
    ∧ modelParentAttrs (twoClassContent cf ct rid F T ⟨cf, ct, .Inheritance⟩)
        (relationshipsForClass (twoClassContent cf ct rid F T ⟨cf, ct, .Inheritance⟩) cf)
        = T.attributes
    ∧ entityInheritanceScan F.name (twoClassContent cf ct rid F T ⟨cf, ct, .Inheritance⟩)
        = (none, true)
    ∧ entityInheritanceScan T.name (twoClassContent cf ct rid F T ⟨cf, ct, .Inheritance⟩)
        = (some F.name, false)
    ∧ entityExtendsClause
        (entityInheritanceScan T.name (twoClassContent cf ct rid F T ⟨cf, ct, .Inheritance⟩)).1
        = " extends " ++ F.name
    ∧ entityInheritanceHeader
        (entityInheritanceScan F.name (twoClassContent cf ct rid F T ⟨cf, ct, .Inheritance⟩)).2
        = "\n@Inheritance(strategy = InheritanceType.JOINED)" := by
  simp only [twoClassContent]
  have hcf : classNameOf ⟨[(cf, F), (ct, T)], [(rid, ⟨cf, ct, .Inheritance⟩)]⟩ cf
      = some F.name := by
    simp [classNameOf]
  have hct : classNameOf ⟨[(cf, F), (ct, T)], [(rid, ⟨cf, ct, .Inheritance⟩)]⟩ ct
      = some T.name := by
    simp [classNameOf, hid, Ne.symm hid]
  have hgf : getClassNameById [(cf, F), (ct, T)] cf = F.name := by
    simp [getClassNameById, hF]
  have hgt : getClassNameById [(cf, F), (ct, T)] ct = T.name := by
    simp [getClassNameById, hid, Ne.symm hid, hT]
  have hscanF : entityInheritanceScan F.name
      ⟨[(cf, F), (ct, T)], [(rid, ⟨cf, ct, .Inheritance⟩)]⟩ = (none, true) := by
    simp [entityInheritanceScan, hgf, hgt, hname, Ne.symm hname]
  have hscanT : entityInheritanceScan T.name
      ⟨[(cf, F), (ct, T)], [(rid, ⟨cf, ct, .Inheritance⟩)]⟩ = (some F.name, false) := by
    simp [entityInheritanceScan, hgf, hgt, hname, Ne.symm hname]
  have hrels : relationshipsForClass
      ⟨[(cf, F), (ct, T)], [(rid, ⟨cf, ct, .Inheritance⟩)]⟩ cf
      = [⟨RelationType.Inheritance, T.name, ct, false⟩] := by
    simp [relationshipsForClass, analyzeRelationships, relationEntries, hcf, hct, hF, hT]
  refine ⟨hrels, ?_, ?_, hscanF, hscanT, by rw [hscanT]; rfl, by rw [hscanF]; rfl⟩
  · simp [relationshipsForClass, analyzeRelationships, relationEntries,
      hcf, hct, hF, hT, hid, Ne.symm hid]
  · rw [hrels]
    simp [modelParentAttrs, modelInheritanceRel, hid, Ne.symm hid]

open CodeGenerationService CodeGenerationFlutterService in
/-- Witness for `C1_inheritance_child_from_client_to_server` on
Parent/Child. -/
theorem C1_inheritance_child_from_client_to_server_witness :
    ("c1" ≠ "c2" ∧ Examples.parentClass.name ≠ Examples.childClass.name
      ∧ Examples.parentClass.name ≠ "" ∧ Examples.childClass.name ≠ "")
    ∧ relationshipsForClass
        (twoClassContent "c1" "c2" "r1" Examples.parentClass Examples.childClass
          ⟨"c1", "c2", .Inheritance⟩) "c1"
      = [⟨RelationType.Inheritance, Examples.childClass.name, "c2", false⟩] :=
  ⟨⟨by decide, by decide, by decide, by decide⟩,
    (C1_inheritance_child_from_client_to_server "c1" "c2" "r1" Examples.parentClass
      Examples.childClass (by decide) (by decide) (by decide) (by decide)).1⟩

open CodeGenerationService CodeGenerationFlutterService in
/-- C2 counterexample: for a ManyToOne relation whose `to` id `c9` names no
class, the client resolver and assignment detection drop it, but the server
generator does NOT: `getClassNameById` falls back to the raw id and the
Author entity receives a relationship field referencing a class named `c9` —
contradicting the claim that both generators emit no relationship field. -/
theorem C2_counterexample_server_emits_raw_id_field :
    classNameOf Examples.danglingContent "c9" = none
    ∧ analyzeRelationships Examples.danglingContent = []
    ∧ detectManyToManyAssignments Examples.danglingContent = []
    ∧ entityRelationFields "Author" Examples.danglingContent
        = ["    @ManyToOne\n    @JoinColumn(name = \"c9_id\")\n    private c9 c9;"] := by
  refine ⟨by decide, by decide, by decide, by decide⟩

open CodeGenerationService CodeGenerationFlutterService in
/-- C2 (amended): a relation with a missing endpoint is dropped silently by
the client generator (no resolver entry, no assignment entry).  The server
generator does not drop it: `getClassNameById` substitutes the raw endpoint
id for the missing class name, and the existing class still receives a
relationship field referencing the raw id whenever the entity loop renders a
field for its side — when it is the `from` side of any non-Inheritance
relation (owning field), and when it is the `to` side of a non-Inheritance,
non-ManyToOne relation (inverse field); the one silent server shape is a
dangling-`from` ManyToOne, whose existing `to` class gets no field. -/
theorem C2_dangling_dropped_client_kept_server :
    (∀ (content : DiagramContent) (r : Relation),
        classNameOf content r.fromId = none ∨ classNameOf content r.toId = none →
          relationEntries content r = [] ∧ assignmentOfRelation content r = none)
    ∧ (∀ (els : List (String × ClassElement)) (classId : String),
        els.find? (fun p => p.1 = classId) = none →
          getClassNameById els classId = classId)
    ∧ (∀ (A : ClassElement) (tid : String) (k : RelationType), tid ≠ "c1" →
        A.name ≠ "" → A.name ≠ tid → k ≠ RelationType.Inheritance →
        entityRelationFields A.name ⟨[("c1", A)], [("r1", ⟨"c1", tid, k⟩)]⟩
          = [generateRelationField k tid true])
    ∧ (∀ (A : ClassElement) (tid : String) (k : RelationType), tid ≠ "c1" →
        A.name ≠ "" → A.name ≠ tid → k ≠ RelationType.Inheritance →
        k ≠ RelationType.ManyToOne →
        entityRelationFields A.name ⟨[("c1", A)], [("r1", ⟨tid, "c1", k⟩)]⟩
          = [generateRelationField (getInverseRelationType k) tid false])
    ∧ (∀ (A : ClassElement) (tid : String), tid ≠ "c1" → A.name ≠ "" →
        A.name ≠ tid →
        entityRelationFields A.name ⟨[("c1", A)], [("r1", ⟨tid, "c1", .ManyToOne⟩)]⟩
          = []) := by
  refine ⟨?_, ?_, ?_, ?_, ?_⟩
  · intro content r h
    rcases h with hf | ht
    · constructor
      · cases hx : classNameOf content r.toId <;> simp [relationEntries, hf, hx]
      · by_cases htype : r.type = RelationType.ManyToMany <;>
          cases hx : classNameOf content r.toId <;>
          simp [assignmentOfRelation, htype, hf, hx]
    · constructor
      · cases hx : classNameOf content r.fromId <;> simp [relationEntries, ht, hx]
      · by_cases htype : r.type = RelationType.ManyToMany <;>
          cases hx : classNameOf content r.fromId <;>
          simp [assignmentOfRelation, htype, ht, hx]
  · intro els classId h
    simp [getClassNameById, h]
  · intro A tid k htid hA hname hk
    have hg1 : getClassNameById [("c1", A)] "c1" = A.name := by
      simp [getClassNameById, hA]
    have hg2 : getClassNameById [("c1", A)] tid = tid := by
      simp [getClassNameById, Ne.symm htid]
    simp [entityRelationFields, hg1, hg2, hk, Ne.symm hname]
  · intro A tid k htid hA hname hk1 hk2
    have hg1 : getClassNameById [("c1", A)] "c1" = A.name := by
      simp [getClassNameById, hA]
    have hg2 : getClassNameById [("c1", A)] tid = tid := by
      simp [getClassNameById, Ne.symm htid]
    simp [entityRelationFields, hg1, hg2, hk1, hk2, Ne.symm hname]
  · intro A tid htid hA hname
    have hg1 : getClassNameById [("c1", A)] "c1" = A.name := by
      simp [getClassNameById, hA]
    have hg2 : getClassNameById [("c1", A)] tid = tid := by
      simp [getClassNameById, Ne.symm htid]
    simp [entityRelationFields, hg1, hg2, Ne.symm hname]

open CodeGenerationService CodeGenerationFlutterService in
/-- Witness for `C2_dangling_dropped_client_kept_server` on dangling
relations between Author and the missing id `c9`, one instance per
conjunct (owning ManyToOne field, inverse OneToMany field, and the silent
dangling-`from` ManyToOne). -/
theorem C2_dangling_dropped_client_kept_server_witness :
    (classNameOf Examples.danglingContent "c9" = none
      ∧ "c9" ≠ "c1" ∧ Examples.author.name ≠ "" ∧ Examples.author.name ≠ "c9")
    ∧ relationEntries Examples.danglingContent ⟨"c1", "c9", .ManyToOne⟩ = []
    ∧ getClassNameById Examples.danglingContent.elements "c9" = "c9"
    ∧ entityRelationFields Examples.author.name
        ⟨[("c1", Examples.author)], [("r1", ⟨"c1", "c9", .ManyToOne⟩)]⟩
        = [generateRelationField RelationType.ManyToOne "c9" true]
    ∧ entityRelationFields Examples.author.name
        ⟨[("c1", Examples.author)], [("r1", ⟨"c9", "c1", .OneToMany⟩)]⟩
        = [generateRelationField (getInverseRelationType RelationType.OneToMany) "c9" false]
    ∧ entityRelationFields Examples.author.name
        ⟨[("c1", Examples.author)], [("r1", ⟨"c9", "c1", .ManyToOne⟩)]⟩ = [] :=
  ⟨⟨by decide, by decide, by decide, by decide⟩,
    (C2_dangling_dropped_client_kept_server.1 Examples.danglingContent
      ⟨"c1", "c9", .ManyToOne⟩ (Or.inr (by decide))).1,
    C2_dangling_dropped_client_kept_server.2.1 Examples.danglingContent.elements "c9"
      (by decide),
    C2_dangling_dropped_client_kept_server.2.2.1 Examples.author "c9"
      RelationType.ManyToOne (by decide) (by decide) (by decide) (by decide),
    C2_dangling_dropped_client_kept_server.2.2.2.1 Examples.author "c9"
      RelationType.OneToMany (by decide) (by decide) (by decide) (by decide) (by decide),
    C2_dangling_dropped_client_kept_server.2.2.2.2 Examples.author "c9"
      (by decide) (by decide) (by decide)⟩

open CodeGenerationService in
/-- C4 counterexample: ManyToOne Book→Author versus OneToMany Author→Book.
The resolver facts agree, but the generated server artifacts do not: with
ManyToOne the Author entity carries no relationship field, while with the
claimed-equivalent OneToMany it carries an inverse collection field — so the
two authorings do not yield the same relationship fields in both classes'
artifacts. -/
theorem C4_counterexample_inverse_entity_differs :
    entityRelationFields "Author" Examples.manyToOneContent = []
    ∧ entityRelationFields "Author" Examples.oneToManyContent
        = [generateRelationField RelationType.OneToMany "Book" true]
    ∧ entityRelationFields "Author" Examples.manyToOneContent
        ≠ entityRelationFields "Author" Examples.oneToManyContent := by
  refine ⟨by decide, by decide, by decide⟩

open CodeGenerationService CodeGenerationFlutterService in
/-- C4 (amended): for classes `A`, `B`, resolving ManyToOne `A→B` and
OneToMany `B→A` yields the same per-class ownership facts (an owning
ManyToOne fact on `A`, nothing on `B`) and the same server field on `A`; but
the server generator additionally emits an owning collection field on `B` for
the OneToMany authoring that the ManyToOne authoring does not produce. -/
theorem C4_ownership_symmetric_artifacts_not (cA cB rid : String)
    (A B : ClassElement) (hid : cA ≠ cB) (hname : A.name ≠ B.name)
    (hA : A.name ≠ "") (hB : B.name ≠ "") :
    relationshipsForClass (twoClassContent cA cB rid A B ⟨cA, cB, .ManyToOne⟩) cA
        = [⟨RelationType.ManyToOne, B.name, cB, true⟩]
    ∧ relationshipsForClass (twoClassContent cA cB rid A B ⟨cB, cA, .OneToMany⟩) cA
        = [⟨RelationType.ManyToOne, B.name, cB, true⟩]
    ∧ relationshipsForClass (twoClassContent cA cB rid A B ⟨cA, cB, .ManyToOne⟩) cB = []
    ∧ relationshipsForClass (twoClassContent cA cB rid A B ⟨cB, cA, .OneToMany⟩) cB = []
    ∧ entityRelationFields A.name (twoClassContent cA cB rid A B ⟨cA, cB, .ManyToOne⟩)
        = entityRelationFields A.name (twoClassContent cA cB rid A B ⟨cB, cA, .OneToMany⟩)
    ∧ entityRelationFields B.name (twoClassContent cA cB rid A B ⟨cA, cB, .ManyToOne⟩) = []
    ∧ entityRelationFields B.name (twoClassContent cA cB rid A B ⟨cB, cA, .OneToMany⟩)
        = [generateRelationField RelationType.OneToMany A.name true]
    ∧ entityRelationFields B.name (twoClassContent cA cB rid A B ⟨cB, cA, .OneToMany⟩)
        ≠ entityRelationFields B.name (twoClassContent cA cB rid A B ⟨cA, cB, .ManyToOne⟩) := by
  simp only [twoClassContent]
  have hfindA : List.find? (fun p => p.1 = cA) [(cA, A), (cB, B)] = some (cA, A) := by
    simp
  have hfindB : List.find? (fun p => p.1 = cB) [(cA, A), (cB, B)] = some (cB, B) := by
    simp [hid, Ne.symm hid]
  refine ⟨?_, ?_, ?_, ?_, ?_, ?_, ?_, ?_⟩
  · simp [relationshipsForClass, analyzeRelationships, relationEntries, classNameOf,
      hfindA, hfindB, hA, hB]
  · simp [relationshipsForClass, analyzeRelationships, relationEntries, classNameOf,
      hfindA, hfindB, hA, hB]
  · simp [relationshipsForClass, analyzeRelationships, relationEntries, classNameOf,
      hfindA, hfindB, hA, hB, hid, Ne.symm hid]
  · simp [relationshipsForClass, analyzeRelationships, relationEntries, classNameOf,
      hfindA, hfindB, hA, hB, hid, Ne.symm hid]
  · simp [entityRelationFields, getClassNameById, hfindA, hfindB, hA, hB,
      hname, Ne.symm hname, getInverseRelationType, generateRelationField]
  · simp [entityRelationFields, getClassNameById, hfindA, hfindB, hA, hB,
      hname, Ne.symm hname]
  · simp [entityRelationFields, getClassNameById, hfindA, hfindB, hA, hB,
      hname, Ne.symm hname]
  · simp [entityRelationFields, getClassNameById, hfindA, hfindB, hA, hB,
      hname, Ne.symm hname]

open CodeGenerationService CodeGenerationFlutterService in
/-- Witness for `C4_ownership_symmetric_artifacts_not` on Book/Author. -/
theorem C4_ownership_symmetric_artifacts_not_witness :
    ("c1" ≠ "c2" ∧ Examples.book.name ≠ Examples.author.name
      ∧ Examples.book.name ≠ "" ∧ Examples.author.name ≠ "")
    ∧ relationshipsForClass
        (twoClassContent "c1" "c2" "r1" Examples.book Examples.author
          ⟨"c1", "c2", .ManyToOne⟩) "c1"
      = [⟨RelationType.ManyToOne, Examples.author.name, "c2", true⟩] :=
  ⟨⟨by decide, by decide, by decide, by decide⟩,
    (C4_ownership_symmetric_artifacts_not "c1" "c2" "r1" Examples.book Examples.author
      (by decide) (by decide) (by decide) (by decide)).1⟩

open CodeGenerationService in
/-- C5 counterexample: for the Inheritance Parent→Child where both classes
declare `name`, the server generator's child attribute lines skip only `id`
and re-emit `private String name;` although the parent also declares `name` —
the claimed case-insensitive parent/child de-duplication does not happen in
the server generator. -/
theorem C5_counterexample_server_redeclares_parent_attr :
    (entityInheritanceScan "Child" Examples.inheritanceContent).1 = some "Parent"
    ∧ (⟨"name", "String"⟩ : Attribute) ∈ Examples.parentClass.attributes
    ∧ entityAttributeLines (entityInheritanceScan "Child" Examples.inheritanceContent).1
        Examples.childClass.attributes
      = ["    private String name;", "    private String extra;"]
    ∧ privateFieldLine ⟨"name", "String"⟩
        ∈ entityAttributeLines (entityInheritanceScan "Child" Examples.inheritanceContent).1
            Examples.childClass.attributes := by
  refine ⟨by decide, by decide, by decide, by decide⟩

open CodeGenerationService CodeGenerationFlutterService in
/-- C5 (amended): the parent-then-child, case-insensitive, first-declared-wins
attribute merge happens only in the client generator — its merged attribute
list has pairwise distinct lower-cased names and is a sublist of parent
attributes followed by own attributes; the server generator's child attribute
lines omit exactly the attributes named `id` (case-insensitive) and re-emit
everything else, including names already present on the parent. -/
theorem C5_dedup_in_client_only (ce : ClassElement) (rels : List RelationshipInfo)
    (content : DiagramContent) (p : String) (attrs : List Attribute) :
    ((modelMergedAttributes ce rels content).map (fun a => jsToLowerCase a.name)).Nodup
    ∧ List.Sublist (modelMergedAttributes ce rels content)
        (modelParentAttrs content rels ++ ce.attributes)
    ∧ entityAttributeLines (some p) attrs
        = (attrs.filter (fun a => !(jsToLowerCase a.name == "id"))).map privateFieldLine :=
  ⟨mergeAttributes_nodup_keys _ _, mergeAttributes_sublist _ _,
    entityAttributeLines_some_eq_filter p attrs⟩

open CodeGenerationService in
/-- C6 counterexample: for Composition Author→Book the contained class (Book)
does receive a reverse collection field in the server entity, contradicting
"no reverse field"; and the server collection for Aggregation carries no
cascade, contradicting "owning cascading collection" for both kinds. -/
theorem C6_counterexample_reverse_field_and_no_cascade :
    entityRelationFields "Book" Examples.compositionContent
        = [generateRelationField RelationType.Composition "Author" false]
    ∧ entityRelationFields "Book" Examples.compositionContent ≠ []
    ∧ jsIncludes (generateRelationField RelationType.Aggregation "Book" true) "cascade" = false
    ∧ jsIncludes (generateRelationField RelationType.Composition "Book" true) "cascade" = true := by
  refine ⟨by decide, by decide, by decide, by decide⟩

open CodeGenerationService CodeGenerationFlutterService in
/-- C6 (amended): for an Aggregation or Composition relation `A→B` between
existing classes: in the server target the container `A` receives a collection
field of `B` (cascading with orphan removal for Composition, plain for
Aggregation) and the contained class `B` additionally receives a reverse
collection field of the same kind; in the client target the relation becomes a
reciprocal pair — `A` a non-owning OneToMany, `B` an owning ManyToOne whose
model carries the foreign-key id field for `A`. -/
theorem C6_container_policies_per_target (cA cB rid : String) (A B : ClassElement)
    (hid : cA ≠ cB) (hname : A.name ≠ B.name) (hA : A.name ≠ "") (hB : B.name ≠ "") :
    entityRelationFields A.name (twoClassContent cA cB rid A B ⟨cA, cB, .Composition⟩)
        = [generateRelationField RelationType.Composition B.name true]
    ∧ entityRelationFields B.name (twoClassContent cA cB rid A B ⟨cA, cB, .Composition⟩)
        = [generateRelationField RelationType.Composition A.name false]
    ∧ entityRelationFields A.name (twoClassContent cA cB rid A B ⟨cA, cB, .Aggregation⟩)
        = [generateRelationField RelationType.Aggregation B.name true]
    ∧ entityRelationFields B.name (twoClassContent cA cB rid A B ⟨cA, cB, .Aggregation⟩)
        = [generateRelationField RelationType.Aggregation A.name false]
    ∧ relationshipsForClass (twoClassContent cA cB rid A B ⟨cA, cB, .Composition⟩) cA
        = [⟨RelationType.OneToMany, B.name, cB, false⟩]
    ∧ relationshipsForClass (twoClassContent cA cB rid A B ⟨cA, cB, .Composition⟩) cB
        = [⟨RelationType.ManyToOne, A.name, cA, true⟩]
    ∧ modelFkFields
        (relationshipsForClass (twoClassContent cA cB rid A B ⟨cA, cB, .Composition⟩) cB)
        = ["  int? " ++ toCamelCase A.name ++ "Id;"]
    ∧ relationshipsForClass (twoClassContent cA cB rid A B ⟨cA, cB, .Aggregation⟩) cA
        = [⟨RelationType.OneToMany, B.name, cB, false⟩]
    ∧ relationshipsForClass (twoClassContent cA cB rid A B ⟨cA, cB, .Aggregation⟩) cB
        = [⟨RelationType.ManyToOne, A.name, cA, true⟩] := by
  simp only [twoClassContent]
  have hfindA : List.find? (fun p => p.1 = cA) [(cA, A), (cB, B)] = some (cA, A) := by
    simp
  have hfindB : List.find? (fun p => p.1 = cB) [(cA, A), (cB, B)] = some (cB, B) := by
    simp [hid, Ne.symm hid]
  have hrelsB : relationshipsForClass
      (⟨[(cA, A), (cB, B)], [(rid, ⟨cA, cB, .Composition⟩)]⟩ : DiagramContent) cB
      = [⟨RelationType.ManyToOne, A.name, cA, true⟩] := by
    simp [relationshipsForClass, analyzeRelationships, relationEntries, classNameOf,
      hfindA, hfindB, hA, hB, hid, Ne.symm hid]
  refine ⟨?_, ?_, ?_, ?_, ?_, hrelsB, ?_, ?_, ?_⟩
  · simp [entityRelationFields, getClassNameById, hfindA, hfindB, hA, hB,
      hname, Ne.symm hname]
  · simp [entityRelationFields, getClassNameById, hfindA, hfindB, hA, hB,
      hname, Ne.symm hname, getInverseRelationType]
  · simp [entityRelationFields, getClassNameById, hfindA, hfindB, hA, hB,
      hname, Ne.symm hname]
  · simp [entityRelationFields, getClassNameById, hfindA, hfindB, hA, hB,
      hname, Ne.symm hname, getInverseRelationType]
  · simp [relationshipsForClass, analyzeRelationships, relationEntries, classNameOf,
      hfindA, hfindB, hA, hB, hid, Ne.symm hid]
  · rw [hrelsB]
    simp [modelFkFields]
  · simp [relationshipsForClass, analyzeRelationships, relationEntries, classNameOf,
      hfindA, hfindB, hA, hB, hid, Ne.symm hid]
  · simp [relationshipsForClass, analyzeRelationships, relationEntries, classNameOf,
      hfindA, hfindB, hA, hB, hid, Ne.symm hid]

open CodeGenerationService CodeGenerationFlutterService in
/-- Witness for `C6_container_policies_per_target` on Author/Book. -/
theorem C6_container_policies_per_target_witness :
    ("c1" ≠ "c2" ∧ Examples.author.name ≠ Examples.book.name
      ∧ Examples.author.name ≠ "" ∧ Examples.book.name ≠ "")
    ∧ entityRelationFields Examples.author.name
        (twoClassContent "c1" "c2" "r1" Examples.author Examples.book
          ⟨"c1", "c2", .Composition⟩)
      = [generateRelationField RelationType.Composition Examples.book.name true] :=
  ⟨⟨by decide, by decide, by decide, by decide⟩,
    (C6_container_policies_per_target "c1" "c2" "r1" Examples.author Examples.book
      (by decide) (by decide) (by decide) (by decide)).1⟩
